import Mathlib

set_option maxHeartbeats 1000000

/- Shallow embedding of the thenvoi-mcp recipient-resolution core and the
   startup key classifier. Python strings are modelled through their character
   lists so that all operations compute by kernel reduction; optional string
   attributes are `Option String`, with `none` standing for both a missing
   attribute and a `None` value. -/

/-- Python `str.split(sep)` on the character list: splitting an empty string
yields one empty piece, and separators at the ends yield empty pieces. -/
def splitCharsAux (sep : Char) : List Char → List Char → List (List Char)
  | [], acc => [acc.reverse]
  | c :: rest, acc =>
      if c = sep then acc.reverse :: splitCharsAux sep rest []
      else splitCharsAux sep rest (c :: acc)

/-- Python `s.split(sep)` for a one-character separator. -/
def pySplit (sep : Char) (s : String) : List String :=
  (splitCharsAux sep s.data []).map String.mk

/-- Python `s.strip()`: drop whitespace from both ends. -/
def pyStrip (s : String) : String :=
  String.mk ((s.data.dropWhile Char.isWhitespace).reverse.dropWhile Char.isWhitespace).reverse

/-- Python `s.lower()`. -/
def pyLower (s : String) : String :=
  String.mk (s.data.map Char.toLower)

/-- Python `s.startswith(pre)`. -/
def pyStartsWith (s pre : String) : Bool :=
  pre.data.isPrefixOf s.data

/-- Python `", ".join(l)`-style joining. -/
def pyJoin (sep : String) : List String → String
  | [] => ""
  | [s] => s
  | s :: rest => s ++ sep ++ pyJoin sep rest

/-- Python truthiness of an optional string: present and non-empty. -/
def pyTruthy (o : Option String) : Bool :=
  match o with
  | some s => if s = "" then false else true
  | none => false

/-- Python `o or d` for an optional string argument: the default replaces a
missing or empty value, as in `message_type or "text"`. -/
def pyOrStr (o : Option String) (d : String) : String :=
  match o with
  | some s => if s = "" then d else s
  | none => d

/-- Outcome of a Python call: a returned value or a raised exception message. -/
inductive PyResult (ε α : Type) where
  | ok (val : α)
  | raised (err : ε)
deriving DecidableEq, Repr

/- ---------------------------------------------------------------------- -/
/- Insertion-ordered dictionary, modelling a Python `dict`: inserting an
   existing key replaces its value in place, a new key is appended. -/

/-- Insertion-ordered association list standing for a Python `dict`. -/
abbrev Dict (α : Type) := List (String × α)

/-- Python `d[k] = v`: replace in place when the key exists, append otherwise. -/
def dictInsert {α : Type} : Dict α → String → α → Dict α
  | [], k, v => [(k, v)]
  | (a, b) :: t, k, v => if a = k then (k, v) :: t else (a, b) :: dictInsert t k v

/-- Python `d.get(k)`. -/
def dictGet {α : Type} : Dict α → String → Option α
  | [], _ => none
  | (a, b) :: t, n => if a = n then some b else dictGet t n

/-- Python `list(d.keys())`: keys in insertion order. -/
def dictKeys {α : Type} (d : Dict α) : List String :=
  d.map Prod.fst

/- ---------------------------------------------------------------------- -/
/- src/src/thenvoi_mcp/tools/human/human_messages.py, send_user_chat_message -/

/-- A participant record as consumed by `send_user_chat_message`: the `id`
attribute is accessed unconditionally, the three name attributes are guarded
by `hasattr` and truthiness checks. -/
structure Participant where
  id : String
  name : Option String := none
  username : Option String := none
  first_name : Option String := none
deriving DecidableEq, Repr

/-- A resolved mention record (`ChatMessageRequestMentionsItem`). -/
structure Mention where
  id : String
  name : String
deriving DecidableEq, Repr

/-- The outgoing message payload (`ChatMessageRequest`). -/
structure ChatMessageRequest where
  content : String
  mentions : List Mention
deriving DecidableEq, Repr

/-- Outcome of one `send_user_chat_message` call, together with the network
calls it performed: how many participant-list fetches, and which message
payloads were handed to the send endpoint. -/
structure SendTrace where
  result : PyResult String Unit
  listParticipantCalls : Nat
  sent : List ChatMessageRequest
deriving DecidableEq, Repr

/-- The lower-cased keys a participant contributes to the name index:
the truthy ones among `name`, `username`, `first_name`. -/
def candKeys (p : Participant) : List String :=
  (if pyTruthy p.name then [pyLower (p.name.getD "")] else []) ++
  (if pyTruthy p.username then [pyLower (p.username.getD "")] else []) ++
  (if pyTruthy p.first_name then [pyLower (p.first_name.getD "")] else [])

/-- One iteration of the index-building loop in `send_user_chat_message`:
insert each truthy attribute, lower-cased, pointing at the participant. -/
def indexOne (d : Dict Participant) (p : Participant) : Dict Participant :=
  let d1 := if pyTruthy p.name then dictInsert d (pyLower (p.name.getD "")) p else d
  let d2 := if pyTruthy p.username then dictInsert d1 (pyLower (p.username.getD "")) p else d1
  if pyTruthy p.first_name then dictInsert d2 (pyLower (p.first_name.getD "")) p else d2

/-- The `name_to_participant` dictionary of `send_user_chat_message`. -/
def buildIndex (ps : List Participant) : Dict Participant :=
  ps.foldl indexOne []

/-- The display name frozen into a mention:
`getattr(participant, "name", None) or getattr(participant, "username", "Unknown")`. -/
def displayOf (p : Participant) : String :=
  let fallback := p.username.getD "Unknown"
  match p.name with
  | some s => if s = "" then fallback else s
  | none => fallback

/-- The mention built for a matched participant. -/
def mentionOf (p : Participant) : Mention :=
  { id := p.id, name := displayOf p }

/-- The resolution loop of `send_user_chat_message`: matched names accumulate
mentions in request order, unmatched names accumulate into `not_found`. -/
def resolveLoop (idx : Dict Participant) : List String → List Mention × List String
  | [] => ([], [])
  | n :: rest =>
      let r := resolveLoop idx rest
      match dictGet idx n with
      | some p => (mentionOf p :: r.1, r.2)
      | none => (r.1, n :: r.2)

/-- Tokenisation of the recipients argument:
`[name.strip().lower() for name in recipients.split(",") if name.strip()]`. -/
def tokenizeRecipients (r : String) : List String :=
  (pySplit ',' r).filterMap (fun s => if pyStrip s = "" then none else some (pyLower (pyStrip s)))

/-- Shallow embedding of `send_user_chat_message` from
`src/src/thenvoi_mcp/tools/human/human_messages.py`. The participant list
`ps` is what the participant-list endpoint would return; the trace records
the fetches and sends actually performed. -/
def send_user_chat_message (ps : List Participant) (content : String)
    (recipients : Option String) : SendTrace :=
  if pyTruthy recipients then
    let recipient_names := tokenizeRecipients (recipients.getD "")
    let idx := buildIndex ps
    let r := resolveLoop idx recipient_names
    if r.2.isEmpty then
      { result := .ok (), listParticipantCalls := 1,
        sent := [{ content := content, mentions := r.1 }] }
    else
      { result := .raised ("Not found: " ++ pyJoin ", " r.2 ++ ". Available: " ++
          pyJoin ", " (dictKeys idx)),
        listParticipantCalls := 1, sent := [] }
  else
    { result := .raised "recipients is required - specify who to @mention",
      listParticipantCalls := 0, sent := [] }

example : send_user_chat_message [{ id := "u1", name := some "Weather Agent" }]
    "hi" (some "WEATHER AGENT") =
    { result := .ok (), listParticipantCalls := 1,
      sent := [{ content := "hi", mentions := [{ id := "u1", name := "Weather Agent" }] }] } := by
  decide

example : send_user_chat_message [{ id := "u1", name := some "Alice" }]
    "hi" (some "Alice,Carol") =
    { result := .raised "Not found: carol. Available: alice",
      listParticipantCalls := 1, sent := [] } := by
  decide

example : send_user_chat_message [] "hi" (some " , ") =
    { result := .ok (), listParticipantCalls := 1,
      sent := [{ content := "hi", mentions := [] }] } := by
  decide

/- ---------------------------------------------------------------------- -/
/- src/src/thenvoi_mcp/server.py -/

/-- Shallow embedding of `get_key_type` from `src/src/thenvoi_mcp/server.py`:
classify the configured API key by its string prefix. -/
def get_key_type (key : String) : String :=
  if pyStartsWith key "thnv_u_" then "user"
  else if pyStartsWith key "thnv_a_" then "agent"
  else if pyStartsWith key "thnv_" then "legacy"
  else "unknown"

/-- The load-time decision in `server.py` to import the agent tool group:
`if key_type in ("agent", "legacy")`. -/
def agentToolsRegistered (key_type : String) : Bool :=
  key_type = "agent" || key_type = "legacy"

/-- The load-time decision in `server.py` to import the human tool group:
`if key_type in ("user", "legacy")`. -/
def humanToolsRegistered (key_type : String) : Bool :=
  key_type = "user" || key_type = "legacy"

/- ---------------------------------------------------------------------- -/
/- src/src/thenvoi_mcp/tools/messages.py, create_chat_message -/

/-- A participant record as consumed by `create_chat_message`: every
attribute is guarded by `hasattr`, so all are optional here. -/
structure CCMParticipant where
  participant_id : Option String := none
  id : Option String := none
  agent_name : Option String := none
  name : Option String := none
  participant_type : Option String := none
  type : Option String := none
deriving DecidableEq, Repr

/-- A mention entry as built by `create_chat_message`: a dict with keys
`id` and `username`. -/
structure CCMMention where
  id : String
  username : String
deriving DecidableEq, Repr

/-- The `ChatMessageRequest` payload built by `create_chat_message`. -/
structure CCMRequest where
  content : String
  sender_id : String
  sender_type : String
  message_type : String
  mentions : Option (List CCMMention)
deriving DecidableEq, Repr

/-- The participant key used by `create_chat_message`:
`p.participant_id if hasattr(p, "participant_id") else (p.id if hasattr(p, "id") else None)`. -/
def ccmPId (p : CCMParticipant) : Option String :=
  match p.participant_id with
  | some s => some s
  | none => p.id

/-- The participant type recorded by `create_chat_message`. -/
def ccmType (p : CCMParticipant) : Option String :=
  match p.participant_type with
  | some s => some s
  | none => p.type

/-- The display name recorded by `create_chat_message`: `agent_name` when
truthy, else `name` when truthy, else the participant key itself. -/
def ccmDisplay (p : CCMParticipant) (pid : String) : String :=
  if pyTruthy p.agent_name then p.agent_name.getD ""
  else if pyTruthy p.name then p.name.getD ""
  else pid

/-- The `participant_map` of `create_chat_message`: participant key to
display name and type, skipping records with a falsy key. -/
def buildPMap (ps : List CCMParticipant) : Dict (String × Option String) :=
  ps.foldl
    (fun d p =>
      match ccmPId p with
      | some pid => if pid = "" then d else dictInsert d pid (ccmDisplay p pid, ccmType p)
      | none => d)
    []

/-- Tokenisation of the `recipient_ids` argument:
`[rid.strip() for rid in recipient_ids.split(",") if rid.strip()]`. -/
def tokenizeIds (s : String) : List String :=
  (pySplit ',' s).filterMap (fun t => if pyStrip t = "" then none else some (pyStrip t))

/-- The display name `create_chat_message` uses for a recipient id: the value
stored in `participant_map`, which the function only reads after verifying
the id is present. -/
def pmapDisplay (pmap : Dict (String × Option String)) (rid : String) : String :=
  ((dictGet pmap rid).map Prod.fst).getD rid

/-- Shallow embedding of `create_chat_message` from
`src/src/thenvoi_mcp/tools/messages.py`. `ps` is the participant list the
participant endpoint would return and `sender_id` the authenticated user id
from the profile endpoint; the value is the request handed to the send
endpoint, or the raised validation error. -/
def create_chat_message (ps : List CCMParticipant) (sender_id content : String)
    (recipient_ids message_type : Option String) : PyResult String CCMRequest :=
  let mt := pyOrStr message_type "text"
  if pyTruthy recipient_ids then
    let recipient_list := tokenizeIds (recipient_ids.getD "")
    if recipient_list.isEmpty then
      .ok { content := content, sender_id := sender_id, sender_type := "User",
            message_type := mt, mentions := none }
    else
      let pmap := buildPMap ps
      let invalid := recipient_list.filter (fun rid => (dictGet pmap rid).isNone)
      if invalid.isEmpty then
        let ml := recipient_list.map
          (fun rid => ({ id := rid, username := pmapDisplay pmap rid } : CCMMention))
        let tags := recipient_list.map (fun rid => "@" ++ pmapDisplay pmap rid)
        .ok { content := pyJoin " " tags ++ " " ++ content, sender_id := sender_id,
              sender_type := "User", message_type := mt, mentions := some ml }
      else
        .raised ("The following recipients are not participants in the chat room: " ++
          pyJoin ", " invalid)
  else
    .ok { content := content, sender_id := sender_id, sender_type := "User",
          message_type := mt, mentions := none }

/- ---------------------------------------------------------------------- -/
/- src/src/thenvoi_mcp/tools/human/human_participants.py -/

/-- The `AddMyChatParticipantRequestParticipant` payload. -/
structure AddParticipantRequest where
  participant_id : String
  role : String
deriving DecidableEq, Repr

/-- Shallow embedding of the request construction in
`add_user_chat_participant` from
`src/src/thenvoi_mcp/tools/human/human_participants.py`:
`role=role or "member"`. -/
def add_user_chat_participant (participant_id : String) (role : Option String) :
    AddParticipantRequest :=
  { participant_id := participant_id, role := pyOrStr role "member" }

/- ---------------------------------------------------------------------- -/
/- createAgentChatMessage: modelled from the spec. -/

/-- A participant as described by the data model in the spec (section 3):
an agent carries an `agentName`, a user a `firstName`/`lastName`. -/
structure SpecParticipant where
  id : String
  isAgent : Bool
  agentName : Option String := none
  firstName : Option String := none
  lastName : Option String := none
deriving DecidableEq, Repr

/-- A pre-resolved mention entry after JSON parsing: each key may be absent. -/
structure RawMention where
  id : Option String := none
  name : Option String := none
deriving DecidableEq, Repr

/-- Modelled from the spec: the display-name derivation of section 3 (the
implementation of `createAgentChatMessage` is not present in the source
tree; only its tests remain). Agents use `agentName`; otherwise
`firstName`/`lastName` are space-joined skipping missing parts; the id is
the fallback. -/
def specDisplayName (p : SpecParticipant) : String :=
  match (if p.isAgent then p.agentName else none) with
  | some a => a
  | none =>
      let parts := ([p.firstName, p.lastName].filterMap id).filter (fun s => s ≠ "")
      if parts.isEmpty then p.id else pyJoin " " parts

/-- Modelled from the spec: the display-name index of section 4.2 for
`createAgentChatMessage`, lower-cased names with last-write-wins. -/
def specBuildIndex (ps : List SpecParticipant) : Dict SpecParticipant :=
  ps.foldl (fun d p => dictInsert d (pyLower (specDisplayName p)) p) []

/-- Modelled from the spec: validation of the pre-resolved mentions list of
section 4.3 — each entry must carry both `id` and `name`; a missing field
fails with an error naming it. -/
def validateRawMentions : List RawMention → PyResult String (List Mention)
  | [] => .ok []
  | e :: rest =>
      match e.id with
      | none => .raised "Invalid mentions entry: missing required field id"
      | some i =>
          match e.name with
          | none => .raised "Invalid mentions entry: missing required field name"
          | some n =>
              match validateRawMentions rest with
              | .ok ms => .ok ({ id := i, name := n } :: ms)
              | .raised err => .raised err

/-- Modelled from the spec: the free-text resolution loop of section 4.3 for
`createAgentChatMessage` — matches accumulate in request order, unmatched
names are collected. -/
def resolveSpecLoop (idx : Dict SpecParticipant) : List String → List Mention × List String
  | [] => ([], [])
  | n :: rest =>
      let r := resolveSpecLoop idx rest
      match dictGet idx n with
      | some p => ({ id := p.id, name := specDisplayName p } :: r.1, r.2)
      | none => (r.1, n :: r.2)

/-- Modelled from the spec: `createAgentChatMessage`, whose implementation is
absent from the source tree (only `src/tests/test_messages.py` exercises
it). Control flow follows sections 2 and 4.3: a supplied `mentions` list is
validated and used directly with no participant fetch, `recipients` being
ignored; otherwise the free-text path fetches, indexes and resolves; with
neither, the call fails. The `mentions` argument is the JSON array already
parsed; malformed JSON is outside this model. -/
def createAgentChatMessage (ps : List SpecParticipant) (content : String)
    (recipients : Option String) (mentions : Option (List RawMention)) : SendTrace :=
  match mentions with
  | some entries =>
      match validateRawMentions entries with
      | .ok ms =>
          { result := .ok (), listParticipantCalls := 0,
            sent := [{ content := content, mentions := ms }] }
      | .raised err =>
          { result := .raised err, listParticipantCalls := 0, sent := [] }
  | none =>
      match recipients with
      | none =>
          { result := .raised "Missing recipients or mentions",
            listParticipantCalls := 0, sent := [] }
      | some r =>
          let names := tokenizeRecipients r
          if names.isEmpty then
            { result := .raised "recipients cannot be empty",
              listParticipantCalls := 0, sent := [] }
          else
            let idx := specBuildIndex ps
            let res := resolveSpecLoop idx names
            if res.2.isEmpty then
              { result := .ok (), listParticipantCalls := 1,
                sent := [{ content := content, mentions := res.1 }] }
            else
              { result := .raised ("Could not find participants: " ++ pyJoin ", " res.2 ++
                  ". Available: " ++ pyJoin ", " (dictKeys idx)),
                listParticipantCalls := 1, sent := [] }

/- ---------------------------------------------------------------------- -/
/- Helper lemmas. -/

theorem dictGet_dictInsert {α : Type} (d : Dict α) (k : String) (v : α) (n : String) :
    dictGet (dictInsert d k v) n = if n = k then some v else dictGet d n := by
  induction d with
  | nil =>
      simp only [dictInsert, dictGet]
      by_cases h : n = k
      · subst h; simp
      · rw [if_neg (fun hh : k = n => h hh.symm), if_neg h]
  | cons hd tl ih =>
      obtain ⟨a, b⟩ := hd
      simp only [dictInsert]
      by_cases hak : a = k
      · rw [if_pos hak]
        subst hak
        simp only [dictGet]
        by_cases han : a = n
        · subst han; simp
        · rw [if_neg han, if_neg (fun hh : n = a => han hh.symm), if_neg han]
      · rw [if_neg hak]
        simp only [dictGet]
        by_cases han : a = n
        · subst han
          rw [if_pos rfl, if_pos rfl, if_neg (fun hh : a = k => hak hh)]
        · rw [if_neg han, if_neg han]
          exact ih

theorem dictKeys_dictInsert {α : Type} (d : Dict α) (k : String) (v : α) :
    dictKeys (dictInsert d k v) =
      if k ∈ dictKeys d then dictKeys d else dictKeys d ++ [k] := by
  induction d with
  | nil => simp [dictInsert, dictKeys]
  | cons hd tl ih =>
      obtain ⟨a, b⟩ := hd
      simp only [dictInsert]
      by_cases hak : a = k
      · rw [if_pos hak]
        subst hak
        simp [dictKeys]
      · rw [if_neg hak]
        simp only [dictKeys, List.map_cons] at ih ⊢
        rw [ih]
        have hka : ¬(k = a) := fun hh => hak hh.symm
        by_cases h2 : k ∈ List.map Prod.fst tl
        · rw [if_pos h2, if_pos (by simp [h2])]
        · rw [if_neg h2, if_neg (by simp [hka, h2])]
          simp

theorem nodup_dictKeys_dictInsert {α : Type} {d : Dict α} (h : (dictKeys d).Nodup)
    (k : String) (v : α) : (dictKeys (dictInsert d k v)).Nodup := by
  rw [dictKeys_dictInsert]
  by_cases hk : k ∈ dictKeys d
  · simpa [hk] using h
  · simp only [hk, if_false]
    exact List.Nodup.append h (List.nodup_singleton k) (by simpa using hk)

theorem nodup_dictKeys_indexOne {d : Dict Participant} (p : Participant)
    (h : (dictKeys d).Nodup) : (dictKeys (indexOne d p)).Nodup := by
  simp only [indexOne]
  split_ifs <;>
    first
      | exact h
      | exact nodup_dictKeys_dictInsert h _ _
      | exact nodup_dictKeys_dictInsert (nodup_dictKeys_dictInsert h _ _) _ _
      | exact nodup_dictKeys_dictInsert
          (nodup_dictKeys_dictInsert (nodup_dictKeys_dictInsert h _ _) _ _) _ _

theorem nodup_dictKeys_buildIndex (ps : List Participant) :
    (dictKeys (buildIndex ps)).Nodup := by
  have main : ∀ (l : List Participant) (d : Dict Participant),
      (dictKeys d).Nodup → (dictKeys (l.foldl indexOne d)).Nodup := by
    intro l
    induction l with
    | nil => intro d h; simpa using h
    | cons p t ih => intro d h; exact ih _ (nodup_dictKeys_indexOne p h)
  exact main ps [] (by simp [dictKeys])

theorem dictGet_foldl_dictInsert (d : Dict Participant) (ks : List String)
    (p : Participant) (n : String) :
    dictGet (ks.foldl (fun acc k => dictInsert acc k p) d) n =
      if n ∈ ks then some p else dictGet d n := by
  induction ks generalizing d with
  | nil => simp
  | cons k t ih =>
      simp only [List.foldl_cons, List.mem_cons]
      rw [ih]
      by_cases hn : n ∈ t
      · simp [hn]
      · simp only [hn, if_false, or_false]
        rw [dictGet_dictInsert]

theorem indexOne_eq_foldl (d : Dict Participant) (p : Participant) :
    indexOne d p = (candKeys p).foldl (fun acc k => dictInsert acc k p) d := by
  simp only [indexOne, candKeys]
  by_cases h1 : pyTruthy p.name <;> by_cases h2 : pyTruthy p.username <;>
    by_cases h3 : pyTruthy p.first_name <;> simp [h1, h2, h3]

theorem dictGet_indexOne (d : Dict Participant) (p : Participant) (n : String) :
    dictGet (indexOne d p) n = if n ∈ candKeys p then some p else dictGet d n := by
  rw [indexOne_eq_foldl, dictGet_foldl_dictInsert]

theorem buildIndex_append (ps : List Participant) (q : Participant) :
    buildIndex (ps ++ [q]) = indexOne (buildIndex ps) q := by
  simp [buildIndex, List.foldl_append]

theorem indexOne_of_no_keys {p : Participant} (h : candKeys p = [])
    (d : Dict Participant) : indexOne d p = d := by
  have e1 : pyTruthy p.name = false := by
    by_cases hb : pyTruthy p.name
    · simp [candKeys, hb] at h
    · simpa using hb
  have e2 : pyTruthy p.username = false := by
    by_cases hb : pyTruthy p.username
    · simp [candKeys, hb] at h
    · simpa using hb
  have e3 : pyTruthy p.first_name = false := by
    by_cases hb : pyTruthy p.first_name
    · simp [candKeys, hb] at h
    · simpa using hb
  simp [indexOne, e1, e2, e3]

theorem buildIndex_of_no_keys {ps : List Participant}
    (h : ∀ p ∈ ps, candKeys p = []) : buildIndex ps = [] := by
  have main : ∀ (l : List Participant), (∀ p ∈ l, candKeys p = []) →
      ∀ (d : Dict Participant), l.foldl indexOne d = d := by
    intro l
    induction l with
    | nil => intro _ d; rfl
    | cons p t ih =>
        intro hl d
        have hp : candKeys p = [] := hl p (by simp)
        have ht : ∀ q ∈ t, candKeys q = [] := fun q hq => hl q (by simp [hq])
        simp [List.foldl, indexOne_of_no_keys hp, ih ht]
  exact main ps h []

theorem resolveLoop_fst (idx : Dict Participant) (names : List String) :
    (resolveLoop idx names).1 =
      names.filterMap (fun n => (dictGet idx n).map mentionOf) := by
  induction names with
  | nil => simp [resolveLoop]
  | cons n rest ih =>
      simp only [resolveLoop, List.filterMap_cons]
      cases h : dictGet idx n <;> simp [h, ih]

theorem resolveLoop_snd (idx : Dict Participant) (names : List String) :
    (resolveLoop idx names).2 =
      names.filter (fun n => (dictGet idx n).isNone) := by
  induction names with
  | nil => simp [resolveLoop]
  | cons n rest ih =>
      simp only [resolveLoop, List.filter_cons]
      cases h : dictGet idx n <;> simp [h, ih]

theorem filterMap_length_of_all_isSome {β γ : Type} (f : β → Option γ) :
    ∀ (l : List β), (∀ x ∈ l, (f x).isSome) → (l.filterMap f).length = l.length := by
  intro l
  induction l with
  | nil => intro _; rfl
  | cons x xs ih =>
      intro h
      obtain ⟨y, hy⟩ := Option.isSome_iff_exists.mp (h x (by simp))
      have hxs := ih (fun a ha => h a (by simp [ha]))
      simp [List.filterMap_cons, hy, hxs]

theorem filterMap_get_of_all_isSome {β γ : Type} (f : β → Option γ) :
    ∀ (l : List β), (∀ x ∈ l, (f x).isSome) →
      ∀ (i : Nat) (hi : i < l.length) (hm : i < (l.filterMap f).length),
        f (l.get ⟨i, hi⟩) = some ((l.filterMap f).get ⟨i, hm⟩) := by
  intro l
  induction l with
  | nil => intro _ i hi; exact absurd hi (by simp)
  | cons x xs ih =>
      intro h i hi hm
      obtain ⟨y, hy⟩ := Option.isSome_iff_exists.mp (h x (by simp))
      match i with
      | 0 => simp [List.filterMap_cons, hy] at hm ⊢
      | Nat.succ j =>
          have hxs := ih (fun a ha => h a (by simp [ha]))
          have hm2 : j < (xs.filterMap f).length := by
            have := hm
            simp [List.filterMap_cons, hy] at this
            omega
          have := hxs j (by simpa using hi) hm2
          simpa [List.filterMap_cons, hy] using this

theorem pyStartsWith_u_thnv (key : String) (h : pyStartsWith key "thnv_u_" = true) :
    pyStartsWith key "thnv_" = true := by
  simp only [pyStartsWith, List.isPrefixOf_iff_prefix] at h ⊢
  exact List.IsPrefix.trans (by decide) h

theorem pyStartsWith_a_thnv (key : String) (h : pyStartsWith key "thnv_a_" = true) :
    pyStartsWith key "thnv_" = true := by
  simp only [pyStartsWith, List.isPrefixOf_iff_prefix] at h ⊢
  exact List.IsPrefix.trans (by decide) h

theorem pyStartsWith_not_u_and_a (key : String) :
    ¬(pyStartsWith key "thnv_u_" = true ∧ pyStartsWith key "thnv_a_" = true) := by
  rintro ⟨hu, ha⟩
  simp only [pyStartsWith, List.isPrefixOf_iff_prefix] at hu ha
  rcases List.prefix_or_prefix_of_prefix hu ha with h | h
  · exact absurd (List.IsPrefix.eq_of_length h (by decide)) (by decide)
  · exact absurd (List.IsPrefix.eq_of_length h (by decide)) (by decide)

theorem dictGet_buildIndex_mem (ps : List Participant) (n : String) (p : Participant)
    (h : dictGet (buildIndex ps) n = some p) : n ∈ candKeys p ∧ p ∈ ps := by
  induction ps using List.reverseRecOn with
  | nil => simp [buildIndex, dictGet] at h
  | append_singleton t q ih =>
      rw [buildIndex_append, dictGet_indexOne] at h
      by_cases hm : n ∈ candKeys q
      · rw [if_pos hm] at h
        obtain rfl : q = p := by injection h
        exact ⟨hm, by simp⟩
      · rw [if_neg hm] at h
        obtain ⟨h1, h2⟩ := ih h
        exact ⟨h1, by simp [h2]⟩

/-- Claim C7: in the display-name index built by the resolver, every indexed
lower-cased name maps to exactly one participant record (key list has no
duplicates), and a participant appended later silently overwrites any earlier
mapping for each lower-cased name it contributes, with no error path. -/
theorem c7_index_last_write_wins :
    (∀ ps : List Participant, (dictKeys (buildIndex ps)).Nodup) ∧
    (∀ (ps : List Participant) (q : Participant) (n : String),
      dictGet (buildIndex (ps ++ [q])) n =
        if n ∈ candKeys q then some q else dictGet (buildIndex ps) n) := by
  refine ⟨nodup_dictKeys_buildIndex, fun ps q n => ?_⟩
  rw [buildIndex_append, dictGet_indexOne]

/-- Claim C8: the key classifier returns exactly one of four values — "user"
iff the key starts with "thnv_u_", "agent" iff it starts with "thnv_a_",
"legacy" iff it starts with "thnv_" but with neither longer prefix, and
"unknown" otherwise — and the tool groups registered at startup are a pure
function of this classification. -/
theorem c8_get_key_type_classification (key : String) :
    (get_key_type key = "user" ∨ get_key_type key = "agent" ∨
      get_key_type key = "legacy" ∨ get_key_type key = "unknown") ∧
    (get_key_type key = "user" ↔ pyStartsWith key "thnv_u_" = true) ∧
    (get_key_type key = "agent" ↔ pyStartsWith key "thnv_a_" = true) ∧
    (get_key_type key = "legacy" ↔
      (pyStartsWith key "thnv_" = true ∧ pyStartsWith key "thnv_u_" = false ∧
        pyStartsWith key "thnv_a_" = false)) ∧
    (get_key_type key = "unknown" ↔ pyStartsWith key "thnv_" = false) ∧
    (agentToolsRegistered (get_key_type key) =
      (pyStartsWith key "thnv_a_" ||
        (pyStartsWith key "thnv_" && !pyStartsWith key "thnv_u_" &&
          !pyStartsWith key "thnv_a_"))) ∧
    (humanToolsRegistered (get_key_type key) =
      (pyStartsWith key "thnv_u_" ||
        (pyStartsWith key "thnv_" && !pyStartsWith key "thnv_u_" &&
          !pyStartsWith key "thnv_a_"))) := by
  by_cases hu : pyStartsWith key "thnv_u_" = true <;>
    by_cases ha : pyStartsWith key "thnv_a_" = true <;>
      by_cases ht : pyStartsWith key "thnv_" = true
  · exact absurd ⟨hu, ha⟩ (pyStartsWith_not_u_and_a key)
  · exact absurd ⟨hu, ha⟩ (pyStartsWith_not_u_and_a key)
  · simp only [Bool.not_eq_true] at ha
    simp [get_key_type, agentToolsRegistered, humanToolsRegistered, hu, ha, ht]
  · exact absurd (pyStartsWith_u_thnv key hu) ht
  · simp only [Bool.not_eq_true] at hu
    simp [get_key_type, agentToolsRegistered, humanToolsRegistered, hu, ha, ht]
  · exact absurd (pyStartsWith_a_thnv key ha) ht
  · simp only [Bool.not_eq_true] at hu ha
    simp [get_key_type, agentToolsRegistered, humanToolsRegistered, hu, ha, ht]
  · simp only [Bool.not_eq_true] at hu ha ht
    simp [get_key_type, agentToolsRegistered, humanToolsRegistered, hu, ha, ht]

/-- Claim C9: with `message_type` omitted the message is sent as "text", with
`role` omitted the participant is added as "member", and no other default is
substituted for a caller-omitted value in these operations — the content,
sender and participant id pass through verbatim. -/
theorem c9_documented_defaults :
    (∀ (ps : List CCMParticipant) (sender_id content : String)
       (recipient_ids : Option String) (req : CCMRequest),
       create_chat_message ps sender_id content recipient_ids none = .ok req →
         req.message_type = "text") ∧
    (∀ (ps : List CCMParticipant) (sender_id content : String) (mt : Option String),
       create_chat_message ps sender_id content none mt =
         .ok { content := content, sender_id := sender_id, sender_type := "User",
               message_type := pyOrStr mt "text", mentions := none }) ∧
    (∀ (ps : List CCMParticipant) (sender_id content mt : String)
       (recipient_ids : Option String) (req : CCMRequest), mt ≠ "" →
       create_chat_message ps sender_id content recipient_ids (some mt) = .ok req →
         req.message_type = mt) ∧
    (∀ pid : String, add_user_chat_participant pid none =
       { participant_id := pid, role := "member" }) ∧
    (∀ (pid r : String), r ≠ "" →
       add_user_chat_participant pid (some r) = { participant_id := pid, role := r }) := by
  refine ⟨?_, ?_, ?_, ?_, ?_⟩
  · intro ps sender_id content recipient_ids req h
    simp only [create_chat_message] at h
    split_ifs at h <;>
      first
        | (injection h with h2; rw [← h2]; simp [pyOrStr])
        | exact absurd h (by simp)
  · intro ps sender_id content mt
    simp [create_chat_message, pyTruthy]
  · intro ps sender_id content mt recipient_ids req hmt h
    simp only [create_chat_message] at h
    split_ifs at h <;>
      first
        | (injection h with h2; rw [← h2]; simp [pyOrStr, hmt])
        | exact absurd h (by simp)
  · intro pid
    simp [add_user_chat_participant, pyOrStr]
  · intro pid r hr
    simp [add_user_chat_participant, pyOrStr, hr]

/-- Witness for C9 at concrete inputs. -/
theorem c9_documented_defaults_witness :
    ("task" ≠ "" ∧ "admin" ≠ "") ∧
    (create_chat_message [] "me" "hello" none (some "task") =
       .ok { content := "hello", sender_id := "me", sender_type := "User",
             message_type := pyOrStr (some "task") "text", mentions := none }) ∧
    (∀ req : CCMRequest, create_chat_message [] "me" "hello" none none = .ok req →
       req.message_type = "text") ∧
    add_user_chat_participant "p9" (some "admin") =
      { participant_id := "p9", role := "admin" } :=
  ⟨⟨by decide, by decide⟩,
    c9_documented_defaults.2.1 [] "me" "hello" (some "task"),
    fun req h => c9_documented_defaults.1 [] "me" "hello" none req h,
    c9_documented_defaults.2.2.2.2 "p9" "admin" (by decide)⟩

/-- Claim C10: with verified recipient ids the sent content is the caller
content prefixed by one "@display-name" tag per recipient, space-joined in
recipient order and followed by a space, the mention records carry the keys
`id` and `username`, and without `recipient_ids` the content goes out
verbatim with no mentions — always with sender_type "User" and the
authenticated user id as sender. -/
theorem c10_create_chat_message_payload (ps : List CCMParticipant)
    (sender_id content ids : String) (mt : Option String) (hids : ids ≠ "")
    (hne : tokenizeIds ids ≠ [])
    (hall : ∀ rid ∈ tokenizeIds ids, (dictGet (buildPMap ps) rid).isSome) :
    (create_chat_message ps sender_id content (some ids) mt =
      .ok { content :=
              pyJoin " " ((tokenizeIds ids).map
                (fun rid => "@" ++ pmapDisplay (buildPMap ps) rid)) ++ " " ++ content,
            sender_id := sender_id, sender_type := "User",
            message_type := pyOrStr mt "text",
            mentions := some ((tokenizeIds ids).map
              (fun rid => { id := rid, username := pmapDisplay (buildPMap ps) rid })) }) ∧
    (create_chat_message ps sender_id content none mt =
      .ok { content := content, sender_id := sender_id, sender_type := "User",
            message_type := pyOrStr mt "text", mentions := none }) := by
  constructor
  · have hinv : (tokenizeIds ids).filter
        (fun rid => (dictGet (buildPMap ps) rid).isNone) = [] := by
      rw [List.filter_eq_nil_iff]
      intro a ha
      have hs := hall a ha
      simp only [Option.isNone_iff_eq_none]
      intro hcontra
      rw [hcontra] at hs
      simp at hs
    have htok : pyTruthy (some ids) = true := by simp [pyTruthy, hids]
    simp only [create_chat_message, Option.getD_some]
    rw [if_pos htok, if_neg (by simp [List.isEmpty_iff, hne]),
      if_pos (by simp [List.isEmpty_iff, hinv])]
  · simp [create_chat_message, pyTruthy]

/-- Witness for C10 at a concrete directory and recipient list. -/
theorem c10_create_chat_message_payload_witness :
    ("a1,a2" ≠ "" ∧ tokenizeIds "a1,a2" ≠ [] ∧
      (∀ rid ∈ tokenizeIds "a1,a2",
        (dictGet (buildPMap
          [{ participant_id := some "a1", agent_name := some "Agent One" },
           { participant_id := some "a2", name := some "Bob" }]) rid).isSome)) ∧
    create_chat_message
        [{ participant_id := some "a1", agent_name := some "Agent One" },
         { participant_id := some "a2", name := some "Bob" }]
        "me" "hello" (some "a1,a2") none =
      .ok { content := "@Agent One @Bob hello", sender_id := "me",
            sender_type := "User", message_type := "text",
            mentions := some [{ id := "a1", username := "Agent One" },
                              { id := "a2", username := "Bob" }] } := by
  refine ⟨⟨by decide, by decide, by decide⟩, ?_⟩
  have h := (c10_create_chat_message_payload
    [{ participant_id := some "a1", agent_name := some "Agent One" },
     { participant_id := some "a2", name := some "Bob" }]
    "me" "hello" "a1,a2" none (by decide) (by decide) (by decide)).1
  rw [h]
  decide

/-- Claim C1: on the free-text path, resolution is all-or-nothing — either
every non-empty requested name matches and the mention list has exactly one
mention per requested name and the message is sent, or the call raises an
error enumerating the unmatched names with the full set of indexed display
names and nothing is sent. -/
theorem c1_resolution_all_or_nothing (ps : List Participant) (content r : String)
    (hr : r ≠ "") :
    ((∀ n ∈ tokenizeRecipients r, (dictGet (buildIndex ps) n).isSome) ∧
      ((tokenizeRecipients r).filterMap
        (fun n => (dictGet (buildIndex ps) n).map mentionOf)).length =
          (tokenizeRecipients r).length ∧
      send_user_chat_message ps content (some r) =
        { result := .ok (), listParticipantCalls := 1,
          sent := [{ content := content,
                     mentions := (tokenizeRecipients r).filterMap
                       (fun n => (dictGet (buildIndex ps) n).map mentionOf) }] }) ∨
    ((∃ n ∈ tokenizeRecipients r, dictGet (buildIndex ps) n = none) ∧
      send_user_chat_message ps content (some r) =
        { result := .raised ("Not found: " ++
            pyJoin ", " ((tokenizeRecipients r).filter
              (fun n => (dictGet (buildIndex ps) n).isNone)) ++
            ". Available: " ++ pyJoin ", " (dictKeys (buildIndex ps))),
          listParticipantCalls := 1, sent := [] }) := by
  have htok : pyTruthy (some r) = true := by simp [pyTruthy, hr]
  by_cases hnf :
      (tokenizeRecipients r).filter (fun n => (dictGet (buildIndex ps) n).isNone) = []
  · left
    have hall : ∀ n ∈ tokenizeRecipients r, (dictGet (buildIndex ps) n).isSome := by
      intro n hn
      have hx := List.filter_eq_nil_iff.mp hnf n hn
      simp only [Option.isNone_iff_eq_none] at hx
      exact Option.isSome_iff_ne_none.mpr hx
    refine ⟨hall, filterMap_length_of_all_isSome _ _ (fun n hn => by simpa using hall n hn), ?_⟩
    simp only [send_user_chat_message, Option.getD_some]
    rw [if_pos htok, if_pos (by rw [resolveLoop_snd, hnf]; rfl), resolveLoop_fst]
  · right
    constructor
    · obtain ⟨n, hn⟩ := List.exists_mem_of_ne_nil _ hnf
      have hmem := List.mem_filter.mp hn
      exact ⟨n, hmem.1, by simpa [Option.isNone_iff_eq_none] using hmem.2⟩
    · simp only [send_user_chat_message, Option.getD_some]
      rw [if_pos htok,
        if_neg (by rw [resolveLoop_snd]; simpa [List.isEmpty_iff] using hnf),
        resolveLoop_snd]

/-- Witness for C1 at a concrete directory and request. -/
theorem c1_resolution_all_or_nothing_witness :
    ("bob" ≠ "") ∧
    (((∀ n ∈ tokenizeRecipients "bob",
        (dictGet (buildIndex ([] : List Participant)) n).isSome) ∧
      ((tokenizeRecipients "bob").filterMap
        (fun n => (dictGet (buildIndex ([] : List Participant)) n).map mentionOf)).length =
          (tokenizeRecipients "bob").length ∧
      send_user_chat_message [] "m" (some "bob") =
        { result := .ok (), listParticipantCalls := 1,
          sent := [{ content := "m",
                     mentions := (tokenizeRecipients "bob").filterMap
                       (fun n => (dictGet (buildIndex ([] : List Participant)) n).map
                         mentionOf) }] }) ∨
    ((∃ n ∈ tokenizeRecipients "bob",
        dictGet (buildIndex ([] : List Participant)) n = none) ∧
      send_user_chat_message [] "m" (some "bob") =
        { result := .raised ("Not found: " ++
            pyJoin ", " ((tokenizeRecipients "bob").filter
              (fun n => (dictGet (buildIndex ([] : List Participant)) n).isNone)) ++
            ". Available: " ++
            pyJoin ", " (dictKeys (buildIndex ([] : List Participant)))),
          listParticipantCalls := 1, sent := [] })) :=
  ⟨by decide, c1_resolution_all_or_nothing [] "m" "bob" (by decide)⟩

/-- Claim C6: when every non-empty token of the recipients string resolves,
the sent mention list has the same length as the token list and its i-th
entry is the resolution of the i-th requested name. -/
theorem c6_order_and_count (ps : List Participant) (content r : String) (hr : r ≠ "")
    (hall : ∀ n ∈ tokenizeRecipients r, (dictGet (buildIndex ps) n).isSome) :
    ∃ req, send_user_chat_message ps content (some r) =
        { result := .ok (), listParticipantCalls := 1, sent := [req] } ∧
      req.content = content ∧
      req.mentions.length = (tokenizeRecipients r).length ∧
      ∀ (i : Nat) (hi : i < (tokenizeRecipients r).length) (hm : i < req.mentions.length),
        (dictGet (buildIndex ps) ((tokenizeRecipients r).get ⟨i, hi⟩)).map mentionOf =
          some (req.mentions.get ⟨i, hm⟩) := by
  have htok : pyTruthy (some r) = true := by simp [pyTruthy, hr]
  have hnf : (tokenizeRecipients r).filter
      (fun n => (dictGet (buildIndex ps) n).isNone) = [] := by
    rw [List.filter_eq_nil_iff]
    intro n hn
    have hs := hall n hn
    simp only [Option.isNone_iff_eq_none]
    intro hcontra
    rw [hcontra] at hs
    simp at hs
  have hsome : ∀ n ∈ tokenizeRecipients r,
      ((dictGet (buildIndex ps) n).map mentionOf).isSome := by
    intro n hn
    simpa using hall n hn
  refine ⟨{ content := content,
            mentions := (tokenizeRecipients r).filterMap
              (fun n => (dictGet (buildIndex ps) n).map mentionOf) }, ?_, rfl, ?_, ?_⟩
  · simp only [send_user_chat_message, Option.getD_some]
    rw [if_pos htok, if_pos (by rw [resolveLoop_snd, hnf]; rfl), resolveLoop_fst]
  · exact filterMap_length_of_all_isSome _ _ hsome
  · intro i hi hm
    exact filterMap_get_of_all_isSome _ _ hsome i hi hm

/-- Witness for C6 with two comma-separated recipients. -/
theorem c6_order_and_count_witness :
    ("Agent One, Agent Two" ≠ "" ∧
      (∀ n ∈ tokenizeRecipients "Agent One, Agent Two",
        (dictGet (buildIndex
          [{ id := "a1", name := some "Agent One" },
           { id := "a2", name := some "Agent Two" }]) n).isSome)) ∧
    (∃ req, send_user_chat_message
        [{ id := "a1", name := some "Agent One" },
         { id := "a2", name := some "Agent Two" }] "hi"
        (some "Agent One, Agent Two") =
        { result := .ok (), listParticipantCalls := 1, sent := [req] } ∧
      req.content = "hi" ∧
      req.mentions.length = (tokenizeRecipients "Agent One, Agent Two").length ∧
      ∀ (i : Nat) (hi : i < (tokenizeRecipients "Agent One, Agent Two").length)
        (hm : i < req.mentions.length),
        (dictGet (buildIndex
          [{ id := "a1", name := some "Agent One" },
           { id := "a2", name := some "Agent Two" }])
            ((tokenizeRecipients "Agent One, Agent Two").get ⟨i, hi⟩)).map mentionOf =
          some (req.mentions.get ⟨i, hm⟩)) :=
  ⟨⟨by decide, by decide⟩,
    c6_order_and_count
      [{ id := "a1", name := some "Agent One" },
       { id := "a2", name := some "Agent Two" }]
      "hi" "Agent One, Agent Two" (by decide) (by decide)⟩

/-- Claim C2 counterexample: a recipients string of only commas and
whitespace yields no tokens, yet the call does not fail — it performs one
participant-list fetch and sends the message with an empty mention list,
contradicting the claimed "recipients cannot be empty" failure with zero
network calls. -/
theorem c2_counterexample :
    tokenizeRecipients " , " = [] ∧
    send_user_chat_message [] "hi" (some " , ") =
      { result := .ok (), listParticipantCalls := 1,
        sent := [{ content := "hi", mentions := [] }] } := by
  decide

/-- Claim C2 (amended): a missing or empty recipients argument fails with
"recipients is required - specify who to @mention" before any network call;
a non-empty recipients string of only commas and whitespace does not fail —
it performs one participant-list fetch and sends the message with an empty
mention list. -/
theorem c2_empty_recipients_amended :
    (∀ (ps : List Participant) (content : String),
      send_user_chat_message ps content none =
        { result := .raised "recipients is required - specify who to @mention",
          listParticipantCalls := 0, sent := [] } ∧
      send_user_chat_message ps content (some "") =
        { result := .raised "recipients is required - specify who to @mention",
          listParticipantCalls := 0, sent := [] }) ∧
    (∀ (ps : List Participant) (content r : String), r ≠ "" →
      tokenizeRecipients r = [] →
      send_user_chat_message ps content (some r) =
        { result := .ok (), listParticipantCalls := 1,
          sent := [{ content := content, mentions := [] }] }) := by
  constructor
  · intro ps content
    constructor <;> simp [send_user_chat_message, pyTruthy]
  · intro ps content r hr htok
    have htruthy : pyTruthy (some r) = true := by simp [pyTruthy, hr]
    simp only [send_user_chat_message, Option.getD_some, htok]
    rw [if_pos htruthy]
    simp [resolveLoop]

/-- Witness for the amended C2 at concrete inputs. -/
theorem c2_empty_recipients_amended_witness :
    (" , " ≠ "" ∧ tokenizeRecipients " , " = []) ∧
    send_user_chat_message [] "hi" (some " , ") =
      { result := .ok (), listParticipantCalls := 1,
        sent := [{ content := "hi", mentions := [] }] } ∧
    send_user_chat_message [] "hi" none =
      { result := .raised "recipients is required - specify who to @mention",
        listParticipantCalls := 0, sent := [] } :=
  ⟨⟨by decide, by decide⟩,
    c2_empty_recipients_amended.2 [] "hi" " , " (by decide) (by decide),
    (c2_empty_recipients_amended.1 [] "hi").1⟩

/-- Claim C4 counterexample: a participant with no name, username or
first_name contributes no index entries — there is no fallback to its id, so
requesting the literal id fails with a not-found error instead of resolving. -/
theorem c4_counterexample :
    candKeys { id := "u1" } = [] ∧
    send_user_chat_message [{ id := "u1" }] "hi" (some "u1") =
      { result := .raised "Not found: u1. Available: ",
        listParticipantCalls := 1, sent := [] } := by
  decide

/-- Claim C4 (amended): in `send_user_chat_message` a participant is indexed
only under the lower-casings of whichever of its `name`, `username` and
`first_name` attributes are present and non-empty; a lookup can only hit one
of those keys, and in a directory of participants carrying none of them no
request resolves — naming such a participant by its literal id raises a
not-found error with an empty available list. -/
theorem c4_display_name_keys_amended :
    (∀ (ps : List Participant) (n : String) (p : Participant),
      dictGet (buildIndex ps) n = some p → n ∈ candKeys p ∧ p ∈ ps) ∧
    (∀ ps : List Participant, (∀ p ∈ ps, candKeys p = []) →
      ∀ (content r : String), r ≠ "" → tokenizeRecipients r ≠ [] →
      send_user_chat_message ps content (some r) =
        { result := .raised ("Not found: " ++ pyJoin ", " (tokenizeRecipients r) ++
            ". Available: "),
          listParticipantCalls := 1, sent := [] }) := by
  refine ⟨dictGet_buildIndex_mem, ?_⟩
  intro ps hps content r hr hne
  have htok : pyTruthy (some r) = true := by simp [pyTruthy, hr]
  have hidx : buildIndex ps = [] := buildIndex_of_no_keys hps
  have hsnd : (resolveLoop (buildIndex ps) (tokenizeRecipients r)).2 =
      tokenizeRecipients r := by
    rw [resolveLoop_snd, hidx]
    simp [dictGet]
  simp only [send_user_chat_message, Option.getD_some]
  rw [if_pos htok, if_neg (by rw [hsnd]; simpa [List.isEmpty_iff] using hne), hsnd, hidx]
  simp [dictKeys, pyJoin]

/-- Witness for the amended C4: a directory holding only a bare participant. -/
theorem c4_display_name_keys_amended_witness :
    ((∀ p ∈ [({ id := "u1" } : Participant)], candKeys p = []) ∧
      "u1" ≠ "" ∧ tokenizeRecipients "u1" ≠ []) ∧
    send_user_chat_message [{ id := "u1" }] "hi" (some "u1") =
      { result := .raised ("Not found: " ++ pyJoin ", " (tokenizeRecipients "u1") ++
          ". Available: "),
        listParticipantCalls := 1, sent := [] } :=
  ⟨⟨by decide, by decide, by decide⟩,
    c4_display_name_keys_amended.2 [{ id := "u1" }] (by decide) "hi" "u1"
      (by decide) (by decide)⟩

/-- Claim C5 counterexample: with a participant named "Bob" and a later
participant whose first_name is also "Bob", the request "BOB" matches the
name of the first participant up to case, yet resolution returns the later
participant's id and its unrelated display name. -/
theorem c5_counterexample :
    pyStrip "BOB" = "BOB" ∧ pyLower "BOB" = pyLower "Bob" ∧
    send_user_chat_message
        [{ id := "u1", name := some "Bob" },
         { id := "u2", name := some "Robert", first_name := some "Bob" }]
        "hi" (some "BOB") =
      { result := .ok (), listParticipantCalls := 1,
        sent := [{ content := "hi",
                   mentions := [{ id := "u2", name := "Robert" }] }] } ∧
    ({ id := "u2", name := "Robert" } : Mention) ≠ { id := "u1", name := "Bob" } := by
  decide

/-- Claim C5 (amended): case-insensitive resolution relative to the built
index — when the index maps the lower-cased name to the participant whose
`name` attribute is N, a request equal to N up to letter case succeeds and
freezes that participant's id and original-cased N into the mention. -/
theorem c5_case_insensitive_amended (ps : List Participant) (p : Participant)
    (N content r : String) (hname : p.name = some N) (hN : N ≠ "")
    (hidx : dictGet (buildIndex ps) (pyLower N) = some p)
    (htok : tokenizeRecipients r = [pyLower N]) :
    send_user_chat_message ps content (some r) =
      { result := .ok (), listParticipantCalls := 1,
        sent := [{ content := content, mentions := [{ id := p.id, name := N }] }] } := by
  have hr : r ≠ "" := by
    intro e
    subst e
    rw [show tokenizeRecipients "" = [] from by decide] at htok
    exact absurd htok (by simp)
  have htruthy : pyTruthy (some r) = true := by simp [pyTruthy, hr]
  have hdisp : displayOf p = N := by simp [displayOf, hname, hN]
  simp only [send_user_chat_message, Option.getD_some, htok]
  rw [if_pos htruthy]
  simp [resolveLoop, hidx, mentionOf, hdisp]

/-- Witness for the amended C5: the "Weather Agent" example requested in
upper case. -/
theorem c5_case_insensitive_amended_witness :
    (({ id := "a9", name := some "Weather Agent" } : Participant).name =
        some "Weather Agent" ∧
      "Weather Agent" ≠ "" ∧
      dictGet (buildIndex [{ id := "a9", name := some "Weather Agent" }])
        (pyLower "Weather Agent") =
          some { id := "a9", name := some "Weather Agent" } ∧
      tokenizeRecipients "WEATHER AGENT" = [pyLower "Weather Agent"]) ∧
    send_user_chat_message [{ id := "a9", name := some "Weather Agent" }] "hi"
        (some "WEATHER AGENT") =
      { result := .ok (), listParticipantCalls := 1,
        sent := [{ content := "hi",
                   mentions := [{ id := "a9", name := "Weather Agent" }] }] } :=
  ⟨⟨by decide, by decide, by decide, by decide⟩,
    c5_case_insensitive_amended [{ id := "a9", name := some "Weather Agent" }]
      { id := "a9", name := some "Weather Agent" } "Weather Agent" "hi"
      "WEATHER AGENT" (by decide) (by decide) (by decide) (by decide)⟩

theorem validateRawMentions_ok (entries : List RawMention)
    (h : ∀ e ∈ entries, e.id.isSome ∧ e.name.isSome) :
    validateRawMentions entries =
      .ok (entries.map (fun e => { id := e.id.getD "", name := e.name.getD "" })) := by
  induction entries with
  | nil => rfl
  | cons e rest ih =>
      obtain ⟨hi, hn⟩ := h e (by simp)
      obtain ⟨i, hi2⟩ := Option.isSome_iff_exists.mp hi
      obtain ⟨n, hn2⟩ := Option.isSome_iff_exists.mp hn
      have hrest := ih (fun a ha => h a (by simp [ha]))
      simp [validateRawMentions, hi2, hn2, hrest]

/-- Claim C3: a supplied pre-resolved mentions list is used exactly as given
— one mention per entry with its id and name — with no participant-directory
fetch, and a simultaneously supplied free-text recipients string is ignored:
the call behaves identically with any recipients value. -/
theorem c3_preresolved_mentions (ps : List SpecParticipant) (content : String)
    (recipients : Option String) (entries : List RawMention)
    (h : ∀ e ∈ entries, e.id.isSome ∧ e.name.isSome) :
    createAgentChatMessage ps content recipients (some entries) =
      { result := .ok (), listParticipantCalls := 0,
        sent := [{ content := content,
                   mentions := entries.map
                     (fun e => { id := e.id.getD "", name := e.name.getD "" }) }] } ∧
    createAgentChatMessage ps content recipients (some entries) =
      createAgentChatMessage ps content none (some entries) := by
  constructor
  · simp [createAgentChatMessage, validateRawMentions_ok entries h]
  · rfl

/-- Witness for C3: one pre-resolved entry with a competing recipients
string, mirroring the precedence test. -/
theorem c3_preresolved_mentions_witness :
    (∀ e ∈ [({ id := some "agent-456", name := some "Weather Agent" } : RawMention)],
      e.id.isSome ∧ e.name.isSome) ∧
    createAgentChatMessage [] "Hello!" (some "Other Agent")
        (some [{ id := some "agent-456", name := some "Weather Agent" }]) =
      { result := .ok (), listParticipantCalls := 0,
        sent := [{ content := "Hello!",
                   mentions := [{ id := "agent-456", name := "Weather Agent" }] }] } ∧
    createAgentChatMessage [] "Hello!" (some "Other Agent")
        (some [{ id := some "agent-456", name := some "Weather Agent" }]) =
      createAgentChatMessage [] "Hello!" none
        (some [{ id := some "agent-456", name := some "Weather Agent" }]) :=
  ⟨by decide,
    (c3_preresolved_mentions [] "Hello!" (some "Other Agent")
      [{ id := some "agent-456", name := some "Weather Agent" }] (by decide)).1,
    (c3_preresolved_mentions [] "Hello!" (some "Other Agent")
      [{ id := some "agent-456", name := some "Weather Agent" }] (by decide)).2⟩
